import Mathlib

/-!
Verification development for the HotAir GPU rendering backend
(`src/vulkanCommon.hpp` `VulkanGfxBase` and `src/waylandGfx.hpp` `WaylandGfx`).

The C++ code is embedded shallowly: each handle-valued member of
`VulkanGfxBase` becomes an `Option Nat` (or `List Nat`) field of `GfxState`;
handles created by the model are drawn from a fresh-handle counter
`nextHandle`, mirroring object identity of driver objects; handles produced
by the driver or the platform (physical device, queues, surface, swapchain
images) are supplied by an `Env` oracle.  Every operation returns, besides
the new state, the list of native calls it performed, and fallible
operations return `Except String` mirroring the `throw std::runtime_error`
sites of the source.
-/

namespace HotAir

/-- Subset of `vk::Format` values relevant to the format-selection logic. -/
inductive Format where
  | eB8G8R8A8Srgb
  | eR8G8B8A8Srgb
  | eB8G8R8A8Unorm
  | eUndefined
deriving DecidableEq, Repr

/-- Subset of `vk::ColorSpaceKHR`. -/
inductive ColorSpace where
  | eSrgbNonlinear
  | eOther
deriving DecidableEq, Repr

/-- `vk::SurfaceFormatKHR`: a pixel format together with a color space. -/
structure SurfaceFormat where
  format : Format
  colorSpace : ColorSpace
deriving DecidableEq, Repr

/-- Subset of `vk::PresentModeKHR`. -/
inductive PresentMode where
  | eFifo
  | eMailbox
  | eImmediate
deriving DecidableEq, Repr

/-- `vk::Extent2D`. -/
structure Extent2D where
  width : Nat
  height : Nat
deriving DecidableEq, Repr

/-- The fields of `vk::SurfaceCapabilitiesKHR` read by `createSwapchain`. -/
structure SurfaceCapabilities where
  minImageCount : Nat
  maxImageCount : Nat
  currentExtent : Extent2D
  minImageExtent : Extent2D
  maxImageExtent : Extent2D
deriving DecidableEq, Repr

/-- `PlatformGfx::Geometry`: width/height pair compared by value. -/
structure Geometry where
  width : Nat
  height : Nat
deriving DecidableEq, Repr

/-- The capability bits of `vk::QueueFamilyProperties::queueFlags`
    tested by `createDevice`. -/
structure QueueFamilyProps where
  graphicsBit : Bool
  transferBit : Bool
  computeBit : Bool
deriving DecidableEq, Repr

/-- Subset of `vk::PhysicalDeviceType`. -/
inductive PhysicalDeviceType where
  | eDiscreteGpu
  | eIntegratedGpu
  | eVirtualGpu
  | eCpu
  | eOther
deriving DecidableEq, Repr

/-- What `pickPhysicalDevice` observes about one enumerated physical device:
    its handle, its `deviceType` property and its `geometryShader` feature. -/
structure PhysicalDeviceInfo where
  handle : Nat
  deviceType : PhysicalDeviceType
  geometryShader : Bool
deriving DecidableEq, Repr

/-- The four queue roles of the backend. -/
inductive Role where
  | graphics
  | transfer
  | present
  | compute
deriving DecidableEq, Repr

/-- The two semaphores of `createSyncObjects`. -/
inductive SemName where
  | imageAvailable
  | renderFinished
deriving DecidableEq, Repr

/-- One native (driver) call performed by the backend.  Traces of these
    events record what the embedded code did, in order. -/
inductive Event where
  | createInstance
  | selectPhysicalDevice
  | createSurface
  | createDevice (queueCreateFamilies : List Nat)
  | getQueue (family : Nat)
  | createSwapchainKHR (minImageCount : Nat)
  | getSwapchainImages
  | createImageView
  | createRenderPass
  | createFramebuffer
  | createCommandPool (role : Role)
  | allocateCommandBuffers (role : Role) (count : Nat)
  | createSemaphore (which : SemName)
  | createFence (signaled : Bool)
  | waitIdle
  | destroyFence
  | destroySemaphore (which : SemName)
  | freeCommandBuffers (role : Role) (count : Nat)
  | destroyCommandPool (role : Role)
  | destroyPipeline
  | destroyPipelineLayout
  | destroyFramebuffer
  | destroyRenderPass
  | destroyImageView
  | destroySwapchainKHR
  | waitForFences (wouldBlock : Bool)
  | resetFences
  | acquireNextImage (idx : Nat)
  | resetCommandBuffer (role : Role) (idx : Nat)
  | beginCommandBuffer
  | beginRenderPass
  | endRenderPass
  | endCommandBuffer
  | queueSubmit (idx : Nat)
  | presentKHR (idx : Nat)
deriving DecidableEq, Repr

/-- `VulkanGfxBase::QueueFamilyIndices`. -/
structure QueueFamilyIndices where
  graphicsFamily : Option Nat := none
  presentFamily : Option Nat := none
  transferFamily : Option Nat := none
  computeFamily : Option Nat := none
deriving DecidableEq, Repr

/-- `QueueFamilyIndices::isComplete()`. -/
def QueueFamilyIndices.isComplete (q : QueueFamilyIndices) : Bool :=
  q.graphicsFamily.isSome && q.presentFamily.isSome &&
  q.transferFamily.isSome && q.computeFamily.isSome

/-- `VulkanGfxBase::CommandPools`. -/
structure CommandPools where
  graphics : Option Nat := none
  transfer : Option Nat := none
  present : Option Nat := none
  compute : Option Nat := none
deriving DecidableEq, Repr

/-- `VulkanGfxBase::CommandBuffers`. -/
structure CommandBuffers where
  graphics : List Nat := []
  transfer : List Nat := []
  present : List Nat := []
  compute : List Nat := []
deriving DecidableEq, Repr

/-- The handle-holding members of `VulkanGfxBase`, plus the model's
    fresh-handle counter `nextHandle` and the signal state of the sync
    objects (used to express the signaled/unsignaled creation states). -/
structure GfxState where
  inst : Option Nat := none
  physicalDevice : Option Nat := none
  device : Option Nat := none
  queue : Option Nat := none
  transferQueue : Option Nat := none
  presentQueue : Option Nat := none
  computeQueue : Option Nat := none
  queueFamilyIndices : QueueFamilyIndices := {}
  surface : Option Nat := none
  swapchain : Option Nat := none
  format : Format := Format.eUndefined
  extent : Extent2D := ⟨0, 0⟩
  images : List Nat := []
  imageViews : List Nat := []
  renderPass : Option Nat := none
  pipelineLayout : Option Nat := none
  pipeline : Option Nat := none
  framebuffers : List Nat := []
  commandPools : CommandPools := {}
  commandBuffers : CommandBuffers := {}
  imageAvailableSemaphore : Option Nat := none
  renderFinishedSemaphore : Option Nat := none
  inFlightFence : Option Nat := none
  nextHandle : Nat := 0
  imageAvailableSignaled : Bool := false
  renderFinishedSignaled : Bool := false
  inFlightFenceSignaled : Bool := false
deriving DecidableEq, Repr

/-- A default-constructed `VulkanGfxBase` (all handles null, all
    containers empty). -/
def GfxState.initial : GfxState := {}

/-- The environment: everything the driver and the platform report back to
    the backend.  A fixed `Env` makes every run deterministic. -/
structure Env where
  physicalDevices : List PhysicalDeviceInfo
  queueFamilies : List QueueFamilyProps
  presentSupport : Nat → Bool
  getQueue : Nat → Nat → Nat
  capabilities : SurfaceCapabilities
  formats : List SurfaceFormat
  presentModes : List PresentMode
  swapchainImages : List Nat
  geometry : Geometry
  acquireIndex : Nat

/-- Allocate `n` consecutive fresh handles. -/
def allocN : Nat → GfxState → List Nat × GfxState
  | 0, s => ([], s)
  | n + 1, s =>
    let h := s.nextHandle
    let (hs, s1) := allocN n { s with nextHandle := h + 1 }
    (h :: hs, s1)

/-- `std::clamp` on unsigned integers. -/
def clampNat (v lo hi : Nat) : Nat :=
  if v < lo then lo else if hi < v then hi else v

/-- The image-count computation of `createSwapchain`:
    `std::clamp(minImageCount + 1, minImageCount, maxImageCount == 0 ? 3 : maxImageCount)`. -/
def imageCountOf (caps : SurfaceCapabilities) : Nat :=
  clampNat (caps.minImageCount + 1) caps.minImageCount
    (if caps.maxImageCount = 0 then 3 else caps.maxImageCount)

/-- The surface-format search of `createSwapchain`: first supported format
    that is `eB8G8R8A8Srgb` with `eSrgbNonlinear` color space. -/
def chooseFormat (formats : List SurfaceFormat) : Option SurfaceFormat :=
  formats.find? fun f =>
    f.format == Format.eB8G8R8A8Srgb && f.colorSpace == ColorSpace.eSrgbNonlinear

/-- `std::numeric_limits<uint32_t>::max()`, the "extent undefined" sentinel. -/
def UINT32_MAX : Nat := 2 ^ 32 - 1

/-- The swap-extent computation of `createSwapchain`: the surface's current
    extent unless it carries the undefined sentinel, in which case the
    platform geometry clamped into the surface's min/max extents. -/
def chooseExtent (caps : SurfaceCapabilities) (geo : Geometry) : Extent2D :=
  if caps.currentExtent.width ≠ UINT32_MAX then caps.currentExtent
  else
    ⟨clampNat geo.width caps.minImageExtent.width caps.maxImageExtent.width,
     clampNat geo.height caps.minImageExtent.height caps.maxImageExtent.height⟩

/-- `VulkanGfxBase::createInstance`: skips creation when the instance
    handle is already set, otherwise creates it. -/
def createInstance (s : GfxState) : GfxState × List Event :=
  if s.inst.isSome then (s, [])
  else ({ s with inst := some s.nextHandle, nextHandle := s.nextHandle + 1 },
        [Event.createInstance])

/-- The suitability predicate of `pickPhysicalDevice`: discrete or
    integrated GPU with geometry-shader support. -/
def isSuitable (d : PhysicalDeviceInfo) : Bool :=
  (d.deviceType == PhysicalDeviceType.eDiscreteGpu ||
   d.deviceType == PhysicalDeviceType.eIntegratedGpu) && d.geometryShader

/-- `VulkanGfxBase::pickPhysicalDevice`: skips selection when a physical
    device is already chosen; otherwise selects the first suitable device
    in enumeration order, failing if enumeration is empty or none match. -/
def pickPhysicalDevice (env : Env) (s : GfxState) :
    Except String (GfxState × List Event) :=
  if s.physicalDevice.isSome then .ok (s, [])
  else if env.physicalDevices.isEmpty then
    .error "failed to find GPUs with Vulkan support"
  else
    match env.physicalDevices.find? isSuitable with
    | none => .error "failed to find a suitable GPU"
    | some d => .ok ({ s with physicalDevice := some d.handle },
                     [Event.selectPhysicalDevice])

/-- The surface step of `VulkanGfxBase::init`: when no surface handle is
    bound yet, the user-supplied callback must be valid and is invoked;
    otherwise surface (re-)creation is skipped. -/
def bindSurface (fn : Option Nat) (s : GfxState) :
    Except String (GfxState × List Event) :=
  match s.surface with
  | some _ => .ok (s, [])
  | none =>
    match fn with
    | none => .error "create_surface fn must be a valid cb"
    | some h => .ok ({ s with surface := some h }, [Event.createSurface])

/-- One iteration body of `createDevice`'s queue-family scan: record family
    `i` for each role whose capability bit (or present support) holds. -/
def QueueFamilyIndices.update (q : QueueFamilyIndices) (i : Nat)
    (p : QueueFamilyProps) (ps : Bool) : QueueFamilyIndices :=
  let q := if p.graphicsBit then { q with graphicsFamily := some i } else q
  let q := if ps then { q with presentFamily := some i } else q
  let q := if p.transferBit then { q with transferFamily := some i } else q
  let q := if p.computeBit then { q with computeFamily := some i } else q
  q

/-- The queue-family scan loop of `createDevice`, breaking as soon as the
    indices are complete. -/
def findQueueFamiliesAux (ps : Nat → Bool) :
    List QueueFamilyProps → Nat → QueueFamilyIndices → QueueFamilyIndices
  | [], _, q => q
  | p :: rest, i, q =>
    let q1 := q.update i p (ps i)
    if q1.isComplete then q1 else findQueueFamiliesAux ps rest (i + 1) q1

/-- `createDevice`'s derivation of `QueueFamilyIndices` from the
    queue-family properties and per-family present support. -/
def findQueueFamilies (props : List QueueFamilyProps) (ps : Nat → Bool) :
    QueueFamilyIndices :=
  findQueueFamiliesAux ps props 0 {}

/-- Correctness of the role assignment: every resolved role index points at
    a family whose corresponding capability bit (or present support) holds. -/
def rolesFromBits (qfs : List QueueFamilyProps) (ps : Nat → Bool)
    (q : QueueFamilyIndices) : Prop :=
  (∀ i, q.graphicsFamily = some i →
     ∃ h : i < qfs.length, (qfs.get ⟨i, h⟩).graphicsBit = true) ∧
  (∀ i, q.presentFamily = some i → ps i = true) ∧
  (∀ i, q.transferFamily = some i →
     ∃ h : i < qfs.length, (qfs.get ⟨i, h⟩).transferBit = true) ∧
  (∀ i, q.computeFamily = some i →
     ∃ h : i < qfs.length, (qfs.get ⟨i, h⟩).computeBit = true)

/-- The `vk::DeviceQueueCreateInfo` list built by `createDevice`: one entry
    per role in order graphics, present, transfer, compute, each guarded so
    that an index equal to a previously pushed role's index is skipped. -/
def queueCreateInfos (q : QueueFamilyIndices) : List Nat :=
  let l : List Nat := []
  let l := match q.graphicsFamily with
    | some g => l ++ [g]
    | none => l
  let l := match q.presentFamily with
    | some p => if q.presentFamily ≠ q.graphicsFamily then l ++ [p] else l
    | none => l
  let l := match q.transferFamily with
    | some t =>
      if q.transferFamily ≠ q.graphicsFamily ∧
         q.transferFamily ≠ q.presentFamily then l ++ [t] else l
    | none => l
  let l := match q.computeFamily with
    | some c =>
      if q.computeFamily ≠ q.graphicsFamily ∧
         q.computeFamily ≠ q.presentFamily ∧
         q.computeFamily ≠ q.transferFamily then l ++ [c] else l
    | none => l
  l

/-- `VulkanGfxBase::createDevice`: skips re-creation when the logical
    device exists; otherwise scans queue families, creates the device with
    the deduplicated queue-create-infos and retrieves the four role queues
    (`.value()` on a missing role corresponds to the error case). -/
def createDevice (env : Env) (s : GfxState) :
    Except String (GfxState × List Event) :=
  if s.device.isSome then .ok (s, [])
  else
    let qfi := findQueueFamilies env.queueFamilies env.presentSupport
    match qfi.graphicsFamily, qfi.presentFamily, qfi.transferFamily,
          qfi.computeFamily with
    | some g, some p, some t, some c =>
      .ok ({ s with
              queueFamilyIndices := qfi,
              device := some s.nextHandle,
              nextHandle := s.nextHandle + 1,
              queue := some (env.getQueue g 0),
              transferQueue := some (env.getQueue t 0),
              presentQueue := some (env.getQueue p 0),
              computeQueue := some (env.getQueue c 0) },
           [Event.createDevice (queueCreateInfos qfi),
            Event.getQueue g, Event.getQueue t, Event.getQueue p,
            Event.getQueue c])
    | _, _, _, _ => .error "bad optional access retrieving role queue"

/-- `VulkanGfxBase::createSwapchain`: computes the extent, finds the
    required surface format and FIFO present mode (fatal if absent),
    requires complete queue-family indices, creates the chain with the
    clamped image count and fetches the image set (fatal if empty). -/
def createSwapchain (env : Env) (s : GfxState) :
    Except String (GfxState × List Event) :=
  let ext := chooseExtent env.capabilities env.geometry
  match chooseFormat env.formats with
  | none => .error "failed to find suitable surface format"
  | some fmt =>
    match env.presentModes.find? (fun m => m == PresentMode.eFifo) with
    | none => .error "failed to find suitable present mode"
    | some _ =>
      if s.queueFamilyIndices.isComplete then
        if env.swapchainImages.isEmpty then
          .error "failed to get swap chain images"
        else
          .ok ({ s with
                  extent := ext,
                  format := fmt.format,
                  swapchain := some s.nextHandle,
                  nextHandle := s.nextHandle + 1,
                  images := env.swapchainImages },
               [Event.createSwapchainKHR (imageCountOf env.capabilities),
                Event.getSwapchainImages])
      else .error "queue family indices are not complete"

/-- `VulkanGfxBase::createImageViews`: one view per swapchain image. -/
def createImageViews (s : GfxState) : GfxState × List Event :=
  let (vs, s1) := allocN s.images.length s
  ({ s1 with imageViews := vs },
   List.replicate s.images.length Event.createImageView)

/-- `VulkanGfxBase::createRenderPass`. -/
def createRenderPass (s : GfxState) : GfxState × List Event :=
  ({ s with renderPass := some s.nextHandle, nextHandle := s.nextHandle + 1 },
   [Event.createRenderPass])

/-- `VulkanGfxBase::createFramebuffers`: one framebuffer per image view. -/
def createFramebuffers (s : GfxState) : GfxState × List Event :=
  let (fbs, s1) := allocN s.imageViews.length s
  ({ s1 with framebuffers := fbs },
   List.replicate s.imageViews.length Event.createFramebuffer)

/-- `VulkanGfxBase::createCommandPools`: one pool per role, created in
    order graphics, transfer, present, compute. -/
def createCommandPools (s : GfxState) : GfxState × List Event :=
  ({ s with
      commandPools :=
        { graphics := some s.nextHandle,
          transfer := some (s.nextHandle + 1),
          present := some (s.nextHandle + 2),
          compute := some (s.nextHandle + 3) },
      nextHandle := s.nextHandle + 4 },
   [Event.createCommandPool Role.graphics, Event.createCommandPool Role.transfer,
    Event.createCommandPool Role.present, Event.createCommandPool Role.compute])

/-- `VulkanGfxBase::createCommandBuffers`: one primary graphics buffer per
    framebuffer (fatal when that allocation comes back empty) and exactly
    one buffer for each of the transfer, present and compute roles. -/
def createCommandBuffers (s : GfxState) :
    Except String (GfxState × List Event) :=
  let n := s.framebuffers.length
  let (gbufs, s1) := allocN n s
  if gbufs.isEmpty then .error "failed to allocate graphics command buffers"
  else
    .ok ({ s1 with
            commandBuffers :=
              { graphics := gbufs,
                transfer := [s1.nextHandle],
                present := [s1.nextHandle + 1],
                compute := [s1.nextHandle + 2] },
            nextHandle := s1.nextHandle + 3 },
         [Event.allocateCommandBuffers Role.graphics n,
          Event.allocateCommandBuffers Role.transfer 1,
          Event.allocateCommandBuffers Role.present 1,
          Event.allocateCommandBuffers Role.compute 1])

/-- `VulkanGfxBase::createSyncObjects`: both semaphores created with
    default (unsignaled) state, the in-flight fence created with the
    `eSignaled` flag. -/
def createSyncObjects (s : GfxState) : GfxState × List Event :=
  ({ s with
      imageAvailableSemaphore := some s.nextHandle,
      renderFinishedSemaphore := some (s.nextHandle + 1),
      inFlightFence := some (s.nextHandle + 2),
      nextHandle := s.nextHandle + 3,
      imageAvailableSignaled := false,
      renderFinishedSignaled := false,
      inFlightFenceSignaled := true },
   [Event.createSemaphore SemName.imageAvailable,
    Event.createSemaphore SemName.renderFinished,
    Event.createFence true])

/-- The context phase of `VulkanGfxBase::init`: instance, physical device,
    surface callback, logical device — each idempotent on re-entry. -/
def initContext (fn : Option Nat) (env : Env) (s : GfxState) :
    Except String (GfxState × List Event) :=
  let ap := createInstance s
  match pickPhysicalDevice env ap.1 with
  | .error e => .error e
  | .ok bp =>
    match bindSurface fn bp.1 with
    | .error e => .error e
    | .ok cp =>
      match createDevice env cp.1 with
      | .error e => .error e
      | .ok dp => .ok (dp.1, ap.2 ++ bp.2 ++ cp.2 ++ dp.2)

/-- The chain phase of `VulkanGfxBase::init`: swapchain, image views,
    render pass, (the graphics-pipeline stage is commented out in the
    source), framebuffers, command pools, command buffers, sync objects. -/
def initChain (env : Env) (s : GfxState) :
    Except String (GfxState × List Event) :=
  match createSwapchain env s with
  | .error e => .error e
  | .ok ap =>
    let bp := createImageViews ap.1
    let cp := createRenderPass bp.1
    let dp := createFramebuffers cp.1
    let ep := createCommandPools dp.1
    match createCommandBuffers ep.1 with
    | .error e => .error e
    | .ok fp =>
      let gp := createSyncObjects fp.1
      .ok (gp.1, ap.2 ++ bp.2 ++ cp.2 ++ dp.2 ++ ep.2 ++ fp.2 ++ gp.2)

/-- `VulkanGfxBase::init(create_surface_fn)`. -/
def init (fn : Option Nat) (env : Env) (s : GfxState) :
    Except String (GfxState × List Event) :=
  match initContext fn env s with
  | .error e => .error e
  | .ok ap =>
    match initChain env ap.1 with
    | .error e => .error e
    | .ok bp => .ok (bp.1, ap.2 ++ bp.2)

/-- `destroy` step: the in-flight fence. -/
def dFence (s : GfxState) : GfxState × List Event :=
  if s.inFlightFence.isSome then
    ({ s with inFlightFence := none }, [Event.destroyFence])
  else (s, [])

/-- `destroy` step: the render-finished semaphore. -/
def dSemRF (s : GfxState) : GfxState × List Event :=
  if s.renderFinishedSemaphore.isSome then
    ({ s with renderFinishedSemaphore := none },
     [Event.destroySemaphore SemName.renderFinished])
  else (s, [])

/-- `destroy` step: the image-available semaphore. -/
def dSemIA (s : GfxState) : GfxState × List Event :=
  if s.imageAvailableSemaphore.isSome then
    ({ s with imageAvailableSemaphore := none },
     [Event.destroySemaphore SemName.imageAvailable])
  else (s, [])

/-- `destroy` step: the graphics command buffers, freed against their
    owning pool when the set is non-empty. -/
def dBufG (s : GfxState) : GfxState × List Event :=
  if s.commandBuffers.graphics.isEmpty then (s, [])
  else ({ s with commandBuffers := { s.commandBuffers with graphics := [] } },
        [Event.freeCommandBuffers Role.graphics s.commandBuffers.graphics.length])

/-- `destroy` step: the transfer command buffers. -/
def dBufT (s : GfxState) : GfxState × List Event :=
  if s.commandBuffers.transfer.isEmpty then (s, [])
  else ({ s with commandBuffers := { s.commandBuffers with transfer := [] } },
        [Event.freeCommandBuffers Role.transfer s.commandBuffers.transfer.length])

/-- `destroy` step: the present command buffers. -/
def dBufP (s : GfxState) : GfxState × List Event :=
  if s.commandBuffers.present.isEmpty then (s, [])
  else ({ s with commandBuffers := { s.commandBuffers with present := [] } },
        [Event.freeCommandBuffers Role.present s.commandBuffers.present.length])

/-- `destroy` step: the compute command buffers. -/
def dBufC (s : GfxState) : GfxState × List Event :=
  if s.commandBuffers.compute.isEmpty then (s, [])
  else ({ s with commandBuffers := { s.commandBuffers with compute := [] } },
        [Event.freeCommandBuffers Role.compute s.commandBuffers.compute.length])

/-- `destroy` step: the compute command pool. -/
def dPoolC (s : GfxState) : GfxState × List Event :=
  if s.commandPools.compute.isSome then
    ({ s with commandPools := { s.commandPools with compute := none } },
     [Event.destroyCommandPool Role.compute])
  else (s, [])

/-- `destroy` step: the present command pool. -/
def dPoolP (s : GfxState) : GfxState × List Event :=
  if s.commandPools.present.isSome then
    ({ s with commandPools := { s.commandPools with present := none } },
     [Event.destroyCommandPool Role.present])
  else (s, [])

/-- `destroy` step: the transfer command pool. -/
def dPoolT (s : GfxState) : GfxState × List Event :=
  if s.commandPools.transfer.isSome then
    ({ s with commandPools := { s.commandPools with transfer := none } },
     [Event.destroyCommandPool Role.transfer])
  else (s, [])

/-- `destroy` step: the graphics command pool. -/
def dPoolG (s : GfxState) : GfxState × List Event :=
  if s.commandPools.graphics.isSome then
    ({ s with commandPools := { s.commandPools with graphics := none } },
     [Event.destroyCommandPool Role.graphics])
  else (s, [])

/-- `destroy` step: the pipeline. -/
def dPipeline (s : GfxState) : GfxState × List Event :=
  if s.pipeline.isSome then
    ({ s with pipeline := none }, [Event.destroyPipeline])
  else (s, [])

/-- `destroy` step: the pipeline layout. -/
def dPipelineLayout (s : GfxState) : GfxState × List Event :=
  if s.pipelineLayout.isSome then
    ({ s with pipelineLayout := none }, [Event.destroyPipelineLayout])
  else (s, [])

/-- `destroy` step: the framebuffers, destroyed one by one. -/
def dFbs (s : GfxState) : GfxState × List Event :=
  if s.framebuffers.isEmpty then (s, [])
  else ({ s with framebuffers := [] },
        s.framebuffers.map fun _ => Event.destroyFramebuffer)

/-- `destroy` step: the render pass. -/
def dRenderPass (s : GfxState) : GfxState × List Event :=
  if s.renderPass.isSome then
    ({ s with renderPass := none }, [Event.destroyRenderPass])
  else (s, [])

/-- `destroy` step: the image views, destroyed one by one. -/
def dViews (s : GfxState) : GfxState × List Event :=
  if s.imageViews.isEmpty then (s, [])
  else ({ s with imageViews := [] },
        s.imageViews.map fun _ => Event.destroyImageView)

/-- `destroy` step: the swapchain. -/
def dSwapchain (s : GfxState) : GfxState × List Event :=
  if s.swapchain.isSome then
    ({ s with swapchain := none }, [Event.destroySwapchainKHR])
  else (s, [])

/-- `VulkanGfxBase::destroy()`: waits for device idle when a device exists,
    then releases, each release guarded by a null/empty check and nulling
    its handle: fence, render-finished semaphore, image-available
    semaphore, the four command-buffer sets, the four command pools (in
    order compute, present, transfer, graphics), pipeline, pipeline
    layout, framebuffers, render pass, image views, swapchain. -/
def destroy (s : GfxState) : GfxState × List Event :=
  let t0 : List Event := if s.device.isSome then [Event.waitIdle] else []
  let (s1, u1) := dFence s
  let (s2, u2) := dSemRF s1
  let (s3, u3) := dSemIA s2
  let (s4, u4) := dBufG s3
  let (s5, u5) := dBufT s4
  let (s6, u6) := dBufP s5
  let (s7, u7) := dBufC s6
  let (s8, u8) := dPoolC s7
  let (s9, u9) := dPoolP s8
  let (s10, u10) := dPoolT s9
  let (s11, u11) := dPoolG s10
  let (s12, u12) := dPipeline s11
  let (s13, u13) := dPipelineLayout s12
  let (s14, u14) := dFbs s13
  let (s15, u15) := dRenderPass s14
  let (s16, u16) := dViews s15
  let (s17, u17) := dSwapchain s16
  (s17, t0 ++ u1 ++ u2 ++ u3 ++ u4 ++ u5 ++ u6 ++ u7 ++ u8 ++ u9 ++ u10 ++
        u11 ++ u12 ++ u13 ++ u14 ++ u15 ++ u16 ++ u17)

/-- Closed form of the state after `destroy`: every guarded release nulls
    (or empties) its handle, everything else is untouched. -/
def destroyedState (s : GfxState) : GfxState :=
  { s with
      inFlightFence := none,
      renderFinishedSemaphore := none,
      imageAvailableSemaphore := none,
      commandBuffers := { graphics := [], transfer := [], present := [], compute := [] },
      commandPools := { graphics := none, transfer := none, present := none, compute := none },
      pipeline := none,
      pipelineLayout := none,
      framebuffers := [],
      renderPass := none,
      imageViews := [],
      swapchain := none }

/-- Closed form of the native-call trace of `destroy`. -/
def destroyTrace (s : GfxState) : List Event :=
  (if s.device.isSome then [Event.waitIdle] else [])
  ++ (if s.inFlightFence.isSome then [Event.destroyFence] else [])
  ++ (if s.renderFinishedSemaphore.isSome then
        [Event.destroySemaphore SemName.renderFinished] else [])
  ++ (if s.imageAvailableSemaphore.isSome then
        [Event.destroySemaphore SemName.imageAvailable] else [])
  ++ (if s.commandBuffers.graphics.isEmpty then [] else
        [Event.freeCommandBuffers Role.graphics s.commandBuffers.graphics.length])
  ++ (if s.commandBuffers.transfer.isEmpty then [] else
        [Event.freeCommandBuffers Role.transfer s.commandBuffers.transfer.length])
  ++ (if s.commandBuffers.present.isEmpty then [] else
        [Event.freeCommandBuffers Role.present s.commandBuffers.present.length])
  ++ (if s.commandBuffers.compute.isEmpty then [] else
        [Event.freeCommandBuffers Role.compute s.commandBuffers.compute.length])
  ++ (if s.commandPools.compute.isSome then
        [Event.destroyCommandPool Role.compute] else [])
  ++ (if s.commandPools.present.isSome then
        [Event.destroyCommandPool Role.present] else [])
  ++ (if s.commandPools.transfer.isSome then
        [Event.destroyCommandPool Role.transfer] else [])
  ++ (if s.commandPools.graphics.isSome then
        [Event.destroyCommandPool Role.graphics] else [])
  ++ (if s.pipeline.isSome then [Event.destroyPipeline] else [])
  ++ (if s.pipelineLayout.isSome then [Event.destroyPipelineLayout] else [])
  ++ (s.framebuffers.map fun _ => Event.destroyFramebuffer)
  ++ (if s.renderPass.isSome then [Event.destroyRenderPass] else [])
  ++ (s.imageViews.map fun _ => Event.destroyImageView)
  ++ (if s.swapchain.isSome then [Event.destroySwapchainKHR] else [])

/-- Closed form of the state after a successful chain phase of `init`,
    starting from state `s` with fresh-handle counter `b`, when the driver
    reports `env.swapchainImages` (length `n`) and format search yields
    `f`:  handles are `b` (swapchain), `b+1 .. b+n` (views), `b+1+n`
    (render pass), `b+2+n .. b+1+2n` (framebuffers), four pools, `n`
    graphics buffers, one buffer per other role, two semaphores, fence. -/
def chainResult (env : Env) (s : GfxState) (f : SurfaceFormat) : GfxState :=
  let n := env.swapchainImages.length
  let b := s.nextHandle
  { s with
      extent := chooseExtent env.capabilities env.geometry,
      format := f.format,
      swapchain := some b,
      images := env.swapchainImages,
      imageViews := List.range' (b + 1) n,
      renderPass := some (b + 1 + n),
      framebuffers := List.range' (b + 2 + n) n,
      commandPools :=
        { graphics := some (b + 2 + 2 * n), transfer := some (b + 3 + 2 * n),
          present := some (b + 4 + 2 * n), compute := some (b + 5 + 2 * n) },
      commandBuffers :=
        { graphics := List.range' (b + 6 + 2 * n) n,
          transfer := [b + 6 + 3 * n],
          present := [b + 7 + 3 * n],
          compute := [b + 8 + 3 * n] },
      imageAvailableSemaphore := some (b + 9 + 3 * n),
      renderFinishedSemaphore := some (b + 10 + 3 * n),
      inFlightFence := some (b + 11 + 3 * n),
      nextHandle := b + 12 + 3 * n,
      imageAvailableSignaled := false,
      renderFinishedSignaled := false,
      inFlightFenceSignaled := true }

/-- Closed form of the native-call trace of a successful chain phase. -/
def chainTrace (env : Env) : List Event :=
  let n := env.swapchainImages.length
  [Event.createSwapchainKHR (imageCountOf env.capabilities),
   Event.getSwapchainImages]
  ++ List.replicate n Event.createImageView
  ++ [Event.createRenderPass]
  ++ List.replicate n Event.createFramebuffer
  ++ [Event.createCommandPool Role.graphics, Event.createCommandPool Role.transfer,
      Event.createCommandPool Role.present, Event.createCommandPool Role.compute]
  ++ [Event.allocateCommandBuffers Role.graphics n,
      Event.allocateCommandBuffers Role.transfer 1,
      Event.allocateCommandBuffers Role.present 1,
      Event.allocateCommandBuffers Role.compute 1]
  ++ [Event.createSemaphore SemName.imageAvailable,
      Event.createSemaphore SemName.renderFinished,
      Event.createFence true]

/-- Resource stages, at the granularity at which `init` acquires and
    `destroy` releases resources of the chain and frame-sync ring. -/
inductive Stage where
  | swapchain
  | imageViews
  | renderPass
  | framebuffers
  | commandPools
  | commandBuffers
  | semaphoreIA
  | semaphoreRF
  | fence
  | pipeline
  | pipelineLayout
deriving DecidableEq, Repr

/-- The stage a native call acquires, if any. -/
def acquireStage : Event → Option Stage
  | .createSwapchainKHR _ => some .swapchain
  | .createImageView => some .imageViews
  | .createRenderPass => some .renderPass
  | .createFramebuffer => some .framebuffers
  | .createCommandPool _ => some .commandPools
  | .allocateCommandBuffers _ _ => some .commandBuffers
  | .createSemaphore .imageAvailable => some .semaphoreIA
  | .createSemaphore .renderFinished => some .semaphoreRF
  | .createFence _ => some .fence
  | _ => none

/-- The stage a native call releases, if any. -/
def releaseStage : Event → Option Stage
  | .destroyFence => some .fence
  | .destroySemaphore .renderFinished => some .semaphoreRF
  | .destroySemaphore .imageAvailable => some .semaphoreIA
  | .freeCommandBuffers _ _ => some .commandBuffers
  | .destroyCommandPool _ => some .commandPools
  | .destroyPipeline => some .pipeline
  | .destroyPipelineLayout => some .pipelineLayout
  | .destroyFramebuffer => some .framebuffers
  | .destroyRenderPass => some .renderPass
  | .destroyImageView => some .imageViews
  | .destroySwapchainKHR => some .swapchain
  | _ => none

/-- Keep the first occurrence of each element, dropping later duplicates
    (accumulator = elements already seen). -/
def firstOccsAux {α : Type} [DecidableEq α] : List α → List α → List α
  | [], _ => []
  | a :: rest, seen =>
    if a ∈ seen then firstOccsAux rest seen
    else a :: firstOccsAux rest (a :: seen)

/-- The distinct elements of a list, in order of first occurrence. -/
def firstOccs {α : Type} [DecidableEq α] (l : List α) : List α :=
  firstOccsAux l []

/-- The observable state of `WaylandGfx`: the embedded `VulkanGfxBase`
    state, the window geometry, the atomic `initialized` flag and the two
    persisted configuration values. -/
structure WaylandState where
  gfx : GfxState
  windowGeometry : Geometry
  initialized : Bool
  configWidth : Nat
  configHeight : Nat
deriving DecidableEq, Repr

/-- An observable action of `WaylandGfx`: a native call, a store to the
    `initialized` flag, or a configuration write. -/
inductive WEvent where
  | native (e : Event)
  | storeInitialized (b : Bool)
  | configSet (width height : Nat)
deriving DecidableEq, Repr

/-- `WaylandGfx::redraw()`: guarded on the `initialized` flag; when set,
    waits on and resets the in-flight fence, acquires the next image,
    re-records the graphics buffer for that index (begin, render pass with
    clear only, end), submits guarded by the fence, and presents.  Vector
    accesses `graphics[idx]`, `present[0]`, `framebuffers[idx]` are
    modelled as checked lookups.  When the flag is unset nothing happens. -/
def redraw (env : Env) (w : WaylandState) :
    Except String (WaylandState × List WEvent) :=
  if w.initialized then
    let s := w.gfx
    let e1 := Event.waitForFences (!s.inFlightFenceSignaled)
    let s := { s with inFlightFenceSignaled := false }
    let idx := env.acquireIndex
    match s.commandBuffers.graphics.get? idx, s.commandBuffers.present.get? 0,
          s.framebuffers.get? idx with
    | some _, some _, some _ =>
      .ok ({ w with gfx := { s with inFlightFenceSignaled := true } },
           [WEvent.native e1, WEvent.native Event.resetFences,
            WEvent.native (Event.acquireNextImage idx),
            WEvent.native (Event.resetCommandBuffer Role.graphics idx),
            WEvent.native (Event.resetCommandBuffer Role.present 0),
            WEvent.native Event.beginCommandBuffer,
            WEvent.native Event.beginRenderPass,
            WEvent.native Event.endRenderPass,
            WEvent.native Event.endCommandBuffer,
            WEvent.native (Event.queueSubmit idx),
            WEvent.native (Event.presentKHR idx)])
    | _, _, _ => .error "image index out of bounds"
  else .ok (w, [])

/-- The `on_resize` lambda installed by `WaylandGfx::init`: returns
    immediately when the new geometry equals the stored geometry;
    otherwise stores the geometry, persists it to the configuration,
    clears `initialized`, destroys and re-initializes the Vulkan state
    (with a null surface callback) and sets `initialized` again. -/
def onResize (env : Env) (newGeo : Geometry) (w : WaylandState) :
    Except String (WaylandState × List WEvent) :=
  if newGeo = w.windowGeometry then .ok (w, [])
  else
    let w1 := { w with
                  windowGeometry := newGeo,
                  configWidth := newGeo.width,
                  configHeight := newGeo.height,
                  initialized := false }
    let (g1, dt) := destroy w1.gfx
    match init none env g1 with
    | .error e => .error e
    | .ok (g2, it) =>
      .ok ({ w1 with gfx := g2, initialized := true },
           [WEvent.configSet newGeo.width newGeo.height,
            WEvent.storeInitialized false]
           ++ dt.map WEvent.native ++ it.map WEvent.native
           ++ [WEvent.storeInitialized true])

/-- A concrete healthy environment used by the witnesses: one suitable
    discrete GPU, one all-capable queue family with present support, a
    surface with `minImageCount = 2`, unbounded `maxImageCount`, the
    required BGRA sRGB format, FIFO present mode and three images. -/
def envA : Env :=
  { physicalDevices := [⟨7, PhysicalDeviceType.eDiscreteGpu, true⟩]
    queueFamilies := [⟨true, true, true⟩]
    presentSupport := fun _ => true
    getQueue := fun fam idx => 100 + 10 * fam + idx
    capabilities :=
      { minImageCount := 2, maxImageCount := 0,
        currentExtent := ⟨640, 480⟩, minImageExtent := ⟨1, 1⟩,
        maxImageExtent := ⟨4096, 4096⟩ }
    formats := [⟨Format.eR8G8B8A8Srgb, ColorSpace.eSrgbNonlinear⟩,
                ⟨Format.eB8G8R8A8Srgb, ColorSpace.eSrgbNonlinear⟩]
    presentModes := [PresentMode.eMailbox, PresentMode.eFifo]
    swapchainImages := [900, 901, 902]
    geometry := ⟨640, 480⟩
    acquireIndex := 1 }

/-- `envA` with no supported surface format (for the fatal-path witness). -/
def envNoFormat : Env :=
  { envA with formats := [⟨Format.eR8G8B8A8Srgb, ColorSpace.eSrgbNonlinear⟩,
                          ⟨Format.eB8G8R8A8Unorm, ColorSpace.eSrgbNonlinear⟩] }

/-- The (successful) `init` run on `envA` from a fresh state, with surface
    handle 500 supplied by the platform callback. -/
def runA : GfxState × List Event :=
  (init (some 500) envA GfxState.initial).toOption.getD (GfxState.initial, [])

/-- The second `init` run on `envA`, after destroying the first run's
    state (the resize path, with a null surface callback). -/
def runB : GfxState × List Event :=
  (init none envA (destroy runA.1).1).toOption.getD (GfxState.initial, [])

/-- The first `redraw` after the `envA` init run. -/
def redrawA : WaylandState × List WEvent :=
  (redraw envA ⟨runA.1, ⟨640, 480⟩, true, 640, 480⟩).toOption.getD
    (⟨GfxState.initial, ⟨0, 0⟩, false, 0, 0⟩, [])

/-! ## Lemmas about `allocN` and the `destroy` steps -/

theorem allocN_eq (n : Nat) (s : GfxState) :
    allocN n s = (List.range' s.nextHandle n,
                  { s with nextHandle := s.nextHandle + n }) := by
  induction n generalizing s with
  | zero => simp [allocN, List.range']
  | succ n ih =>
    have harith : s.nextHandle + 1 + n = s.nextHandle + (n + 1) := by omega
    simp [allocN, ih, List.range', harith]

theorem dFence_eq (s : GfxState) :
    dFence s = ({ s with inFlightFence := none },
      if s.inFlightFence.isSome then [Event.destroyFence] else []) := by
  unfold dFence
  by_cases h : s.inFlightFence.isSome
  · simp [h]
  · have h2 : s.inFlightFence = none := Option.not_isSome_iff_eq_none.mp h
    simp only [h, if_false, Bool.false_eq_true]
    conv_rhs => rw [← h2]

theorem dSemRF_eq (s : GfxState) :
    dSemRF s = ({ s with renderFinishedSemaphore := none },
      if s.renderFinishedSemaphore.isSome then
        [Event.destroySemaphore SemName.renderFinished] else []) := by
  unfold dSemRF
  by_cases h : s.renderFinishedSemaphore.isSome
  · simp [h]
  · have h2 : s.renderFinishedSemaphore = none := Option.not_isSome_iff_eq_none.mp h
    simp only [h, if_false, Bool.false_eq_true]
    conv_rhs => rw [← h2]

theorem dSemIA_eq (s : GfxState) :
    dSemIA s = ({ s with imageAvailableSemaphore := none },
      if s.imageAvailableSemaphore.isSome then
        [Event.destroySemaphore SemName.imageAvailable] else []) := by
  unfold dSemIA
  by_cases h : s.imageAvailableSemaphore.isSome
  · simp [h]
  · have h2 : s.imageAvailableSemaphore = none := Option.not_isSome_iff_eq_none.mp h
    simp only [h, if_false, Bool.false_eq_true]
    conv_rhs => rw [← h2]

theorem dBufG_eq (s : GfxState) :
    dBufG s = ({ s with commandBuffers := { s.commandBuffers with graphics := [] } },
      if s.commandBuffers.graphics.isEmpty then [] else
        [Event.freeCommandBuffers Role.graphics s.commandBuffers.graphics.length]) := by
  unfold dBufG
  by_cases h : s.commandBuffers.graphics.isEmpty
  · have h2 : s.commandBuffers.graphics = [] := List.isEmpty_iff.mp h
    simp only [h, if_true]
    conv_rhs => rw [← h2]
  · simp [h]

theorem dBufT_eq (s : GfxState) :
    dBufT s = ({ s with commandBuffers := { s.commandBuffers with transfer := [] } },
      if s.commandBuffers.transfer.isEmpty then [] else
        [Event.freeCommandBuffers Role.transfer s.commandBuffers.transfer.length]) := by
  unfold dBufT
  by_cases h : s.commandBuffers.transfer.isEmpty
  · have h2 : s.commandBuffers.transfer = [] := List.isEmpty_iff.mp h
    simp only [h, if_true]
    conv_rhs => rw [← h2]
  · simp [h]

theorem dBufP_eq (s : GfxState) :
    dBufP s = ({ s with commandBuffers := { s.commandBuffers with present := [] } },
      if s.commandBuffers.present.isEmpty then [] else
        [Event.freeCommandBuffers Role.present s.commandBuffers.present.length]) := by
  unfold dBufP
  by_cases h : s.commandBuffers.present.isEmpty
  · have h2 : s.commandBuffers.present = [] := List.isEmpty_iff.mp h
    simp only [h, if_true]
    conv_rhs => rw [← h2]
  · simp [h]

theorem dBufC_eq (s : GfxState) :
    dBufC s = ({ s with commandBuffers := { s.commandBuffers with compute := [] } },
      if s.commandBuffers.compute.isEmpty then [] else
        [Event.freeCommandBuffers Role.compute s.commandBuffers.compute.length]) := by
  unfold dBufC
  by_cases h : s.commandBuffers.compute.isEmpty
  · have h2 : s.commandBuffers.compute = [] := List.isEmpty_iff.mp h
    simp only [h, if_true]
    conv_rhs => rw [← h2]
  · simp [h]

theorem dPoolC_eq (s : GfxState) :
    dPoolC s = ({ s with commandPools := { s.commandPools with compute := none } },
      if s.commandPools.compute.isSome then
        [Event.destroyCommandPool Role.compute] else []) := by
  unfold dPoolC
  by_cases h : s.commandPools.compute.isSome
  · simp [h]
  · have h2 : s.commandPools.compute = none := Option.not_isSome_iff_eq_none.mp h
    simp only [h, if_false, Bool.false_eq_true]
    conv_rhs => rw [← h2]

theorem dPoolP_eq (s : GfxState) :
    dPoolP s = ({ s with commandPools := { s.commandPools with present := none } },
      if s.commandPools.present.isSome then
        [Event.destroyCommandPool Role.present] else []) := by
  unfold dPoolP
  by_cases h : s.commandPools.present.isSome
  · simp [h]
  · have h2 : s.commandPools.present = none := Option.not_isSome_iff_eq_none.mp h
    simp only [h, if_false, Bool.false_eq_true]
    conv_rhs => rw [← h2]

theorem dPoolT_eq (s : GfxState) :
    dPoolT s = ({ s with commandPools := { s.commandPools with transfer := none } },
      if s.commandPools.transfer.isSome then
        [Event.destroyCommandPool Role.transfer] else []) := by
  unfold dPoolT
  by_cases h : s.commandPools.transfer.isSome
  · simp [h]
  · have h2 : s.commandPools.transfer = none := Option.not_isSome_iff_eq_none.mp h
    simp only [h, if_false, Bool.false_eq_true]
    conv_rhs => rw [← h2]

theorem dPoolG_eq (s : GfxState) :
    dPoolG s = ({ s with commandPools := { s.commandPools with graphics := none } },
      if s.commandPools.graphics.isSome then
        [Event.destroyCommandPool Role.graphics] else []) := by
  unfold dPoolG
  by_cases h : s.commandPools.graphics.isSome
  · simp [h]
  · have h2 : s.commandPools.graphics = none := Option.not_isSome_iff_eq_none.mp h
    simp only [h, if_false, Bool.false_eq_true]
    conv_rhs => rw [← h2]

theorem dPipeline_eq (s : GfxState) :
    dPipeline s = ({ s with pipeline := none },
      if s.pipeline.isSome then [Event.destroyPipeline] else []) := by
  unfold dPipeline
  by_cases h : s.pipeline.isSome
  · simp [h]
  · have h2 : s.pipeline = none := Option.not_isSome_iff_eq_none.mp h
    simp only [h, if_false, Bool.false_eq_true]
    conv_rhs => rw [← h2]

theorem dPipelineLayout_eq (s : GfxState) :
    dPipelineLayout s = ({ s with pipelineLayout := none },
      if s.pipelineLayout.isSome then [Event.destroyPipelineLayout] else []) := by
  unfold dPipelineLayout
  by_cases h : s.pipelineLayout.isSome
  · simp [h]
  · have h2 : s.pipelineLayout = none := Option.not_isSome_iff_eq_none.mp h
    simp only [h, if_false, Bool.false_eq_true]
    conv_rhs => rw [← h2]

theorem dFbs_eq (s : GfxState) :
    dFbs s = ({ s with framebuffers := [] },
      s.framebuffers.map fun _ => Event.destroyFramebuffer) := by
  unfold dFbs
  by_cases h : s.framebuffers.isEmpty
  · have h2 : s.framebuffers = [] := List.isEmpty_iff.mp h
    rw [if_pos h, h2, List.map_nil]
    conv_rhs => rw [← h2]
  · simp [h]

theorem dRenderPass_eq (s : GfxState) :
    dRenderPass s = ({ s with renderPass := none },
      if s.renderPass.isSome then [Event.destroyRenderPass] else []) := by
  unfold dRenderPass
  by_cases h : s.renderPass.isSome
  · simp [h]
  · have h2 : s.renderPass = none := Option.not_isSome_iff_eq_none.mp h
    simp only [h, if_false, Bool.false_eq_true]
    conv_rhs => rw [← h2]

theorem dViews_eq (s : GfxState) :
    dViews s = ({ s with imageViews := [] },
      s.imageViews.map fun _ => Event.destroyImageView) := by
  unfold dViews
  by_cases h : s.imageViews.isEmpty
  · have h2 : s.imageViews = [] := List.isEmpty_iff.mp h
    rw [if_pos h, h2, List.map_nil]
    conv_rhs => rw [← h2]
  · simp [h]

theorem dSwapchain_eq (s : GfxState) :
    dSwapchain s = ({ s with swapchain := none },
      if s.swapchain.isSome then [Event.destroySwapchainKHR] else []) := by
  unfold dSwapchain
  by_cases h : s.swapchain.isSome
  · simp [h]
  · have h2 : s.swapchain = none := Option.not_isSome_iff_eq_none.mp h
    simp only [h, if_false, Bool.false_eq_true]
    conv_rhs => rw [← h2]

theorem destroy_eq (s : GfxState) :
    destroy s = (destroyedState s, destroyTrace s) := by
  unfold destroy
  simp only [dFence_eq, dSemRF_eq, dSemIA_eq, dBufG_eq, dBufT_eq, dBufP_eq,
    dBufC_eq, dPoolC_eq, dPoolP_eq, dPoolT_eq, dPoolG_eq, dPipeline_eq,
    dPipelineLayout_eq, dFbs_eq, dRenderPass_eq, dViews_eq, dSwapchain_eq]
  simp [destroyedState, destroyTrace]

/-! ## Skip, run and inversion lemmas for the `init` phases -/

theorem createInstance_skip {s : GfxState} (h : s.inst.isSome) :
    createInstance s = (s, []) := by
  simp [createInstance, h]

theorem pickPhysicalDevice_skip (env : Env) {s : GfxState}
    (h : s.physicalDevice.isSome) : pickPhysicalDevice env s = .ok (s, []) := by
  simp [pickPhysicalDevice, h]

theorem bindSurface_skip (fn : Option Nat) {s : GfxState}
    (h : s.surface.isSome) : bindSurface fn s = .ok (s, []) := by
  obtain ⟨x, hx⟩ := Option.isSome_iff_exists.mp h
  simp [bindSurface, hx]

theorem createDevice_skip (env : Env) {s : GfxState}
    (h : s.device.isSome) : createDevice env s = .ok (s, []) := by
  simp [createDevice, h]

theorem initContext_warm (fn : Option Nat) (env : Env) {s : GfxState}
    (h1 : s.inst.isSome) (h2 : s.physicalDevice.isSome)
    (h3 : s.surface.isSome) (h4 : s.device.isSome) :
    initContext fn env s = .ok (s, []) := by
  simp [initContext, createInstance_skip h1, pickPhysicalDevice_skip env h2,
    bindSurface_skip fn h3, createDevice_skip env h4]

theorem createInstance_inv (s : GfxState) :
    ((createInstance s).1).inst.isSome = true ∧
    ((createInstance s).1).physicalDevice = s.physicalDevice ∧
    ((createInstance s).1).surface = s.surface ∧
    ((createInstance s).1).device = s.device ∧
    ((createInstance s).1).queue = s.queue ∧
    ((createInstance s).1).transferQueue = s.transferQueue ∧
    ((createInstance s).1).presentQueue = s.presentQueue ∧
    ((createInstance s).1).computeQueue = s.computeQueue ∧
    ((createInstance s).1).queueFamilyIndices = s.queueFamilyIndices ∧
    ((createInstance s).1).pipeline = s.pipeline ∧
    ((createInstance s).1).pipelineLayout = s.pipelineLayout ∧
    ((createInstance s).2).filterMap acquireStage = [] := by
  unfold createInstance
  split <;> simp_all [acquireStage]

theorem pickPhysicalDevice_inv {env : Env} {s : GfxState}
    {p : GfxState × List Event} (h : pickPhysicalDevice env s = .ok p) :
    (p.1).physicalDevice.isSome = true ∧
    p.1.inst = s.inst ∧ p.1.surface = s.surface ∧ p.1.device = s.device ∧
    p.1.queue = s.queue ∧ p.1.transferQueue = s.transferQueue ∧
    p.1.presentQueue = s.presentQueue ∧ p.1.computeQueue = s.computeQueue ∧
    p.1.queueFamilyIndices = s.queueFamilyIndices ∧
    p.1.pipeline = s.pipeline ∧ p.1.pipelineLayout = s.pipelineLayout ∧
    (p.2).filterMap acquireStage = [] := by
  unfold pickPhysicalDevice at h
  split at h
  · next hs => cases h; simp_all
  · split at h
    · simp at h
    · split at h
      · simp at h
      · cases h; simp_all [acquireStage]

theorem bindSurface_inv {fn : Option Nat} {s : GfxState}
    {p : GfxState × List Event} (h : bindSurface fn s = .ok p) :
    (p.1).surface.isSome = true ∧
    p.1.inst = s.inst ∧ p.1.physicalDevice = s.physicalDevice ∧
    p.1.device = s.device ∧ p.1.queue = s.queue ∧
    p.1.transferQueue = s.transferQueue ∧ p.1.presentQueue = s.presentQueue ∧
    p.1.computeQueue = s.computeQueue ∧
    p.1.queueFamilyIndices = s.queueFamilyIndices ∧
    p.1.pipeline = s.pipeline ∧ p.1.pipelineLayout = s.pipelineLayout ∧
    (p.2).filterMap acquireStage = [] := by
  unfold bindSurface at h
  split at h
  · next hs => cases h; simp_all
  · next hs =>
    split at h
    · simp at h
    · cases h; simp_all [acquireStage]

theorem createDevice_inv {env : Env} {s : GfxState}
    {p : GfxState × List Event} (h : createDevice env s = .ok p) :
    (p.1).device.isSome = true ∧
    p.1.inst = s.inst ∧ p.1.physicalDevice = s.physicalDevice ∧
    p.1.surface = s.surface ∧
    p.1.pipeline = s.pipeline ∧ p.1.pipelineLayout = s.pipelineLayout ∧
    (p.2).filterMap acquireStage = [] := by
  unfold createDevice at h
  split at h
  · next hs => cases h; simp_all
  · dsimp only at h
    split at h
    · cases h; simp_all [acquireStage]
    · simp at h

theorem initContext_inv {fn : Option Nat} {env : Env} {s : GfxState}
    {p : GfxState × List Event} (h : initContext fn env s = .ok p) :
    p.1.inst.isSome = true ∧ p.1.physicalDevice.isSome = true ∧
    p.1.surface.isSome = true ∧ p.1.device.isSome = true ∧
    p.1.pipeline = s.pipeline ∧ p.1.pipelineLayout = s.pipelineLayout ∧
    (p.2).filterMap acquireStage = [] := by
  unfold initContext at h
  dsimp only at h
  split at h
  · simp at h
  · next bp hB =>
    split at h
    · simp at h
    · next cp hC =>
      split at h
      · simp at h
      · next dp hD =>
        cases h
        obtain ⟨a1, a2, a3, a4, a5, a6, a7, a8, a9, a10, a11, a12⟩ :=
          createInstance_inv s
        obtain ⟨b1, b2, b3, b4, b5, b6, b7, b8, b9, b10, b11, b12⟩ :=
          pickPhysicalDevice_inv hB
        obtain ⟨c1, c2, c3, c4, c5, c6, c7, c8, c9, c10, c11, c12⟩ :=
          bindSurface_inv hC
        obtain ⟨d1, d2, d3, d4, d5, d6, d7⟩ := createDevice_inv hD
        refine ⟨?_, ?_, ?_, ?_, ?_, ?_, ?_⟩
        · rw [d2, c2, b2]; exact a1
        · rw [d3]; rw [c3, b1]  -- physicalDevice
        · rw [d4]; exact c1
        · exact d1
        · rw [d5, c10, b10, a10]
        · rw [d6, c11, b11, a11]
        · simp [List.filterMap_append, a12, b12, c12, d7]

theorem map_const_fun {α β : Type} (l : List α) (b : β) :
    (l.map fun _ => b) = List.replicate l.length b := by
  induction l <;> simp_all [List.replicate_succ]

theorem createSwapchain_run {env : Env} {s : GfxState} {f : SurfaceFormat}
    {m : PresentMode}
    (hf : chooseFormat env.formats = some f)
    (hm : env.presentModes.find? (fun x => x == PresentMode.eFifo) = some m)
    (hc : s.queueFamilyIndices.isComplete = true)
    (hi : env.swapchainImages.isEmpty = false) :
    createSwapchain env s =
      .ok ({ s with
              extent := chooseExtent env.capabilities env.geometry,
              format := f.format,
              swapchain := some s.nextHandle,
              nextHandle := s.nextHandle + 1,
              images := env.swapchainImages },
           [Event.createSwapchainKHR (imageCountOf env.capabilities),
            Event.getSwapchainImages]) := by
  simp [createSwapchain, hf, hm, hc, hi]

theorem createImageViews_run (s : GfxState) :
    createImageViews s =
      ({ s with imageViews := List.range' s.nextHandle s.images.length,
                nextHandle := s.nextHandle + s.images.length },
       List.replicate s.images.length Event.createImageView) := by
  simp [createImageViews, allocN_eq]

theorem createFramebuffers_run (s : GfxState) :
    createFramebuffers s =
      ({ s with framebuffers := List.range' s.nextHandle s.imageViews.length,
                nextHandle := s.nextHandle + s.imageViews.length },
       List.replicate s.imageViews.length Event.createFramebuffer) := by
  simp [createFramebuffers, allocN_eq]

theorem createCommandBuffers_eq (s : GfxState) :
    createCommandBuffers s =
      if s.framebuffers.length = 0 then
        .error "failed to allocate graphics command buffers"
      else
        .ok ({ s with
                commandBuffers :=
                  { graphics := List.range' s.nextHandle s.framebuffers.length,
                    transfer := [s.nextHandle + s.framebuffers.length],
                    present := [s.nextHandle + s.framebuffers.length + 1],
                    compute := [s.nextHandle + s.framebuffers.length + 2] },
                nextHandle := s.nextHandle + s.framebuffers.length + 3 },
             [Event.allocateCommandBuffers Role.graphics s.framebuffers.length,
              Event.allocateCommandBuffers Role.transfer 1,
              Event.allocateCommandBuffers Role.present 1,
              Event.allocateCommandBuffers Role.compute 1]) := by
  by_cases h : s.framebuffers.length = 0
  · simp [createCommandBuffers, allocN_eq, h]
  · simp [createCommandBuffers, allocN_eq, h]

theorem initChain_run {env : Env} {s : GfxState} {f : SurfaceFormat}
    {m : PresentMode}
    (hf : chooseFormat env.formats = some f)
    (hm : env.presentModes.find? (fun x => x == PresentMode.eFifo) = some m)
    (hc : s.queueFamilyIndices.isComplete = true)
    (hi : env.swapchainImages ≠ []) :
    initChain env s = .ok (chainResult env s f, chainTrace env) := by
  have hi2 : env.swapchainImages.isEmpty = false := by
    cases hh : env.swapchainImages
    · exact absurd hh hi
    · rfl
  have hn : env.swapchainImages.length ≠ 0 := by
    simpa using hi
  unfold initChain
  rw [createSwapchain_run hf hm hc hi2]
  simp only [createImageViews_run, createRenderPass, createFramebuffers_run,
    createCommandPools, createCommandBuffers_eq, createSyncObjects,
    List.length_range', hn, if_false, List.length_replicate]
  simp only [chainResult, chainTrace]
  simp [List.length_range', hi]
  omega

theorem createSwapchain_inv {env : Env} {s : GfxState}
    {p : GfxState × List Event} (h : createSwapchain env s = .ok p) :
    ∃ f m, chooseFormat env.formats = some f ∧
      env.presentModes.find? (fun x => x == PresentMode.eFifo) = some m ∧
      s.queueFamilyIndices.isComplete = true ∧
      env.swapchainImages ≠ [] := by
  unfold createSwapchain at h
  split at h
  · simp at h
  · next f hf =>
    split at h
    · simp at h
    · next m hm =>
      split at h
      · next hc =>
        split at h
        · simp at h
        · next hi =>
          exact ⟨f, m, hf, hm, hc, by simpa [List.isEmpty_iff] using hi⟩
      · simp at h

theorem initChain_inv {env : Env} {s : GfxState}
    {p : GfxState × List Event} (h : initChain env s = .ok p) :
    ∃ f m, chooseFormat env.formats = some f ∧
      env.presentModes.find? (fun x => x == PresentMode.eFifo) = some m ∧
      s.queueFamilyIndices.isComplete = true ∧ env.swapchainImages ≠ [] ∧
      p = (chainResult env s f, chainTrace env) := by
  cases hA : createSwapchain env s with
  | error e =>
    unfold initChain at h
    rw [hA] at h
    simp at h
  | ok ap =>
    obtain ⟨f, m, hf, hm, hc, hi⟩ := createSwapchain_inv hA
    rw [initChain_run hf hm hc hi] at h
    exact ⟨f, m, hf, hm, hc, hi, by injection h with h1; exact h1.symm⟩

theorem init_inv {fn : Option Nat} {env : Env} {s : GfxState}
    {p : GfxState × List Event} (h : init fn env s = .ok p) :
    ∃ mid ta f m, initContext fn env s = .ok (mid, ta) ∧
      chooseFormat env.formats = some f ∧
      env.presentModes.find? (fun x => x == PresentMode.eFifo) = some m ∧
      mid.queueFamilyIndices.isComplete = true ∧ env.swapchainImages ≠ [] ∧
      p.1 = chainResult env mid f ∧ p.2 = ta ++ chainTrace env := by
  cases hC : initContext fn env s with
  | error e =>
    unfold init at h
    rw [hC] at h
    simp at h
  | ok ap =>
    unfold init at h
    rw [hC] at h
    dsimp only at h
    cases hB : initChain env ap.1 with
    | error e => rw [hB] at h; simp at h
    | ok bp =>
      rw [hB] at h
      dsimp only at h
      obtain ⟨f, m, hf, hm, hc, hi, hbp⟩ := initChain_inv hB
      refine ⟨ap.1, ap.2, f, m, rfl, hf, hm, hc, hi, ?_, ?_⟩
      · injection h with h1
        rw [← h1, hbp]
      · injection h with h1
        rw [← h1, hbp]

/-! ## Generic helpers: `range'` membership, `firstOccs`, `filterMap` -/

theorem mem_range_iff : ∀ (n a m : Nat),
    m ∈ List.range' a n ↔ a ≤ m ∧ m < a + n := by
  intro n
  induction n with
  | zero => intro a m; simp
  | succ n ih =>
    intro a m
    simp [List.range', ih]
    omega

theorem firstOccsAux_mem {α : Type} [DecidableEq α] :
    ∀ (l seen : List α) (x : α),
      x ∈ firstOccsAux l seen ↔ x ∈ l ∧ x ∉ seen := by
  intro l
  induction l with
  | nil => intro seen x; simp [firstOccsAux]
  | cons a rest ih =>
    intro seen x
    unfold firstOccsAux
    split
    · next h =>
      rw [ih]
      simp only [List.mem_cons]
      constructor
      · rintro ⟨hx, hn⟩
        exact ⟨Or.inr hx, hn⟩
      · rintro ⟨hx | hx, hn⟩
        · subst hx; exact absurd h hn
        · exact ⟨hx, hn⟩
    · next h =>
      simp only [List.mem_cons, ih]
      constructor
      · rintro (rfl | ⟨hx, hn⟩)
        · exact ⟨Or.inl rfl, h⟩
        · exact ⟨Or.inr hx, fun hc => hn (Or.inr hc)⟩
      · rintro ⟨hx0, hn⟩
        by_cases hxa : x = a
        · exact Or.inl hxa
        · rcases hx0 with rfl | hx
          · exact Or.inl rfl
          · refine Or.inr ⟨hx, ?_⟩
            rintro (h1 | h1)
            · exact hxa h1
            · exact hn h1

theorem firstOccsAux_nodup {α : Type} [DecidableEq α] :
    ∀ (l seen : List α), (firstOccsAux l seen).Nodup := by
  intro l
  induction l with
  | nil => intro seen; simp [firstOccsAux]
  | cons a rest ih =>
    intro seen
    unfold firstOccsAux
    split
    · exact ih _
    · next h =>
      refine List.nodup_cons.mpr ⟨?_, ih _⟩
      intro hmem
      rw [firstOccsAux_mem] at hmem
      exact hmem.2 (List.mem_cons_self _ _)

theorem firstOccs_mem {α : Type} [DecidableEq α] (l : List α) (x : α) :
    x ∈ firstOccs l ↔ x ∈ l := by
  simp [firstOccs, firstOccsAux_mem]

theorem firstOccs_nodup {α : Type} [DecidableEq α] (l : List α) :
    (firstOccs l).Nodup :=
  firstOccsAux_nodup l []

theorem firstOccsAux_cons_mem {α : Type} [DecidableEq α] (a : α)
    (l seen : List α) (h : a ∈ seen) :
    firstOccsAux (a :: l) seen = firstOccsAux l seen := by
  unfold firstOccsAux
  rw [if_pos h]
  cases l <;> rfl

theorem firstOccsAux_cons_not_mem {α : Type} [DecidableEq α] (a : α)
    (l seen : List α) (h : a ∉ seen) :
    firstOccsAux (a :: l) seen = a :: firstOccsAux l (a :: seen) := by
  unfold firstOccsAux
  rw [if_neg h]
  cases l <;> rfl

theorem firstOccsAux_replicate_mem {α : Type} [DecidableEq α] (n : Nat)
    (a : α) (l seen : List α) (h : a ∈ seen) :
    firstOccsAux (List.replicate n a ++ l) seen = firstOccsAux l seen := by
  induction n with
  | zero => simp
  | succ n ih =>
    rw [List.replicate_succ, List.cons_append, firstOccsAux_cons_mem a _ _ h]
    exact ih

theorem firstOccsAux_replicate_pos {α : Type} [DecidableEq α] (n : Nat)
    (a : α) (l seen : List α) (h : a ∉ seen) (hn : n ≠ 0) :
    firstOccsAux (List.replicate n a ++ l) seen =
      a :: firstOccsAux l (a :: seen) := by
  cases n with
  | zero => exact absurd rfl hn
  | succ n =>
    rw [List.replicate_succ, List.cons_append, firstOccsAux_cons_not_mem a _ _ h,
      firstOccsAux_replicate_mem n a l _ (List.mem_cons_self a seen)]

theorem filterMap_replicate_some {α β : Type} (f : α → Option β) (n : Nat)
    (a : α) (b : β) (h : f a = some b) :
    (List.replicate n a).filterMap f = List.replicate n b := by
  induction n with
  | zero => simp
  | succ n ih =>
    rw [List.replicate_succ, List.replicate_succ, List.filterMap_cons, h, ih]

/-! ## Queue-family scan lemmas (claim C8) -/

theorem update_graphics (q : QueueFamilyIndices) (i : Nat)
    (pr : QueueFamilyProps) (b : Bool) :
    (q.update i pr b).graphicsFamily =
      if pr.graphicsBit then some i else q.graphicsFamily := by
  unfold QueueFamilyIndices.update
  split_ifs <;> rfl

theorem update_present (q : QueueFamilyIndices) (i : Nat)
    (pr : QueueFamilyProps) (b : Bool) :
    (q.update i pr b).presentFamily =
      if b then some i else q.presentFamily := by
  unfold QueueFamilyIndices.update
  split_ifs <;> rfl

theorem update_transfer (q : QueueFamilyIndices) (i : Nat)
    (pr : QueueFamilyProps) (b : Bool) :
    (q.update i pr b).transferFamily =
      if pr.transferBit then some i else q.transferFamily := by
  unfold QueueFamilyIndices.update
  split_ifs <;> rfl

theorem update_compute (q : QueueFamilyIndices) (i : Nat)
    (pr : QueueFamilyProps) (b : Bool) :
    (q.update i pr b).computeFamily =
      if pr.computeBit then some i else q.computeFamily := by
  unfold QueueFamilyIndices.update
  split_ifs <;> rfl

theorem drop_eq_cons_get {α : Type} :
    ∀ (l : List α) (i : Nat) (a : α) (rest : List α),
      l.drop i = a :: rest →
      l.get? i = some a ∧ l.drop (i + 1) = rest := by
  intro l
  induction l with
  | nil => intro i a rest h; rw [List.drop_nil] at h; cases h
  | cons x xs ih =>
    intro i a rest h
    cases i with
    | zero =>
      rw [List.drop_zero] at h
      cases h
      exact ⟨rfl, by simp⟩
    | succ i =>
      rw [List.drop_succ_cons] at h
      obtain ⟨h1, h2⟩ := ih i a rest h
      exact ⟨h1, by simpa using h2⟩

theorem update_bits {qfs : List QueueFamilyProps} {ps : Nat → Bool}
    {q : QueueFamilyIndices} {i : Nat} {pr : QueueFamilyProps}
    (hlt : i < qfs.length) (hget : qfs.get ⟨i, hlt⟩ = pr)
    (hq : rolesFromBits qfs ps q) :
    rolesFromBits qfs ps (q.update i pr (ps i)) := by
  obtain ⟨hg, hp, ht, hc⟩ := hq
  refine ⟨?_, ?_, ?_, ?_⟩
  · intro j hj
    rw [update_graphics] at hj
    split at hj
    · next hb => cases hj; exact ⟨hlt, by rw [hget]; exact hb⟩
    · exact hg j hj
  · intro j hj
    rw [update_present] at hj
    split at hj
    · next hb => cases hj; exact hb
    · exact hp j hj
  · intro j hj
    rw [update_transfer] at hj
    split at hj
    · next hb => cases hj; exact ⟨hlt, by rw [hget]; exact hb⟩
    · exact ht j hj
  · intro j hj
    rw [update_compute] at hj
    split at hj
    · next hb => cases hj; exact ⟨hlt, by rw [hget]; exact hb⟩
    · exact hc j hj

theorem findQueueFamiliesAux_bits (qfs : List QueueFamilyProps)
    (ps : Nat → Bool) :
    ∀ (suffix : List QueueFamilyProps) (i : Nat) (q : QueueFamilyIndices),
      qfs.drop i = suffix → rolesFromBits qfs ps q →
      rolesFromBits qfs ps (findQueueFamiliesAux ps suffix i q) := by
  intro suffix
  induction suffix with
  | nil =>
    intro i q hdrop hq
    simpa [findQueueFamiliesAux] using hq
  | cons pr rest ih =>
    intro i q hdrop hq
    obtain ⟨hget?, hrest⟩ := drop_eq_cons_get qfs i pr rest hdrop
    have hlt : i < qfs.length := by
      by_contra hge
      rw [List.get?_eq_none.mpr (Nat.le_of_not_lt hge)] at hget?
      cases hget?
    have hget : qfs.get ⟨i, hlt⟩ = pr := by
      have := List.get?_eq_get hlt
      rw [this] at hget?
      exact Option.some.inj hget?
    have hq1 : rolesFromBits qfs ps (q.update i pr (ps i)) :=
      update_bits hlt hget hq
    simp only [findQueueFamiliesAux]
    split
    · exact hq1
    · exact ih (i + 1) _ hrest hq1

theorem findQueueFamilies_bits (qfs : List QueueFamilyProps)
    (ps : Nat → Bool) : rolesFromBits qfs ps (findQueueFamilies qfs ps) := by
  have h0 : rolesFromBits qfs ps {} := by
    refine ⟨?_, ?_, ?_, ?_⟩ <;> intro j hj <;> cases hj
  exact findQueueFamiliesAux_bits qfs ps qfs 0 {} (by simp) h0

theorem findQueueFamiliesAux_append (ps : Nat → Bool)
    (extra : List QueueFamilyProps) :
    ∀ (props : List QueueFamilyProps) (i : Nat) (q : QueueFamilyIndices),
      q.isComplete = false →
      (findQueueFamiliesAux ps props i q).isComplete = true →
      findQueueFamiliesAux ps (props ++ extra) i q =
        findQueueFamiliesAux ps props i q := by
  intro props
  induction props with
  | nil =>
    intro i q h0 h1
    simp only [findQueueFamiliesAux] at h1
    rw [h1] at h0
    cases h0
  | cons pr rest ih =>
    intro i q h0 h1
    by_cases hc : (q.update i pr (ps i)).isComplete = true
    · simp [List.cons_append, findQueueFamiliesAux, hc]
    · simp only [findQueueFamiliesAux, hc, if_false] at h1
      simp only [List.cons_append, findQueueFamiliesAux, hc, if_false]
      exact ih (i + 1) _ (by simpa using hc) h1

theorem queueCreateInfos_complete (g p t c : Nat) :
    queueCreateInfos ⟨some g, some p, some t, some c⟩ =
      firstOccs [g, p, t, c] := by
  by_cases h1 : p = g <;> by_cases h2 : t = g <;> by_cases h3 : t = p <;>
    by_cases h4 : c = g <;> by_cases h5 : c = p <;> by_cases h6 : c = t <;>
    simp_all [queueCreateInfos, firstOccs, firstOccsAux]

theorem createDevice_run {env : Env} {s : GfxState} {g p t c : Nat}
    (hd : s.device = none)
    (hq : findQueueFamilies env.queueFamilies env.presentSupport =
      ⟨some g, some p, some t, some c⟩) :
    createDevice env s =
      .ok ({ s with
              queueFamilyIndices := ⟨some g, some p, some t, some c⟩,
              device := some s.nextHandle,
              nextHandle := s.nextHandle + 1,
              queue := some (env.getQueue g 0),
              transferQueue := some (env.getQueue t 0),
              presentQueue := some (env.getQueue p 0),
              computeQueue := some (env.getQueue c 0) },
           [Event.createDevice (queueCreateInfos ⟨some g, some p, some t, some c⟩),
            Event.getQueue g, Event.getQueue t, Event.getQueue p,
            Event.getQueue c]) := by
  simp [createDevice, hd, hq]

/-! ## The claims -/

/-- C2: every call to `redraw()` while the `initialized` flag is unset
    performs no native calls (the returned event list is empty, so there is
    no fence wait, acquire, record, submit or present) and returns without
    error, leaving the state unchanged. -/
theorem c2_redraw_requires_initialized (env : Env) (w : WaylandState)
    (h : w.initialized = false) : redraw env w = .ok (w, []) := by
  simp [redraw, h]

theorem c2_witness :
    redraw envA ⟨GfxState.initial, ⟨640, 480⟩, false, 640, 480⟩ =
      .ok (⟨GfxState.initial, ⟨640, 480⟩, false, 640, 480⟩, []) :=
  c2_redraw_requires_initialized envA ⟨GfxState.initial, ⟨640, 480⟩, false, 640, 480⟩ rfl

/-- C3: for every surface-capabilities input the image count requested by
    chain creation equals `min(minImageCount + 1, maxImageCount)` with the
    `0` sentinel for `maxImageCount` treated as `3`; in particular
    `(min = 2, max = 0)` yields `3` and `(min = 2, max = 2)` yields `2`. -/
theorem c3_image_count_selection :
    (∀ caps : SurfaceCapabilities,
       imageCountOf caps = min (caps.minImageCount + 1)
         (if caps.maxImageCount = 0 then 3 else caps.maxImageCount)) ∧
    imageCountOf { minImageCount := 2, maxImageCount := 0,
                   currentExtent := ⟨0, 0⟩, minImageExtent := ⟨0, 0⟩,
                   maxImageExtent := ⟨0, 0⟩ } = 3 ∧
    imageCountOf { minImageCount := 2, maxImageCount := 2,
                   currentExtent := ⟨0, 0⟩, minImageExtent := ⟨0, 0⟩,
                   maxImageExtent := ⟨0, 0⟩ } = 2 := by
  refine ⟨fun caps => ?_, by decide, by decide⟩
  simp only [imageCountOf, clampNat]
  split_ifs <;> omega

/-- C4: the format selector only ever picks 8-bit BGRA sRGB with
    sRGB-nonlinear color space; on the two-element example list it picks
    the second entry (so never the first, whose format differs); and when
    no such entry exists, chain creation fails fatally with no fallback. -/
theorem c4_format_selection :
    (∀ (fmts : List SurfaceFormat) (f : SurfaceFormat),
        chooseFormat fmts = some f →
        f.format = Format.eB8G8R8A8Srgb ∧
        f.colorSpace = ColorSpace.eSrgbNonlinear) ∧
    chooseFormat [⟨Format.eR8G8B8A8Srgb, ColorSpace.eSrgbNonlinear⟩,
                  ⟨Format.eB8G8R8A8Srgb, ColorSpace.eSrgbNonlinear⟩] =
      some ⟨Format.eB8G8R8A8Srgb, ColorSpace.eSrgbNonlinear⟩ ∧
    (∀ (env : Env) (s : GfxState), chooseFormat env.formats = none →
        createSwapchain env s =
          .error "failed to find suitable surface format") := by
  refine ⟨?_, by decide, ?_⟩
  · intro fmts f h
    have hp := List.find?_some h
    simp only [Bool.and_eq_true, beq_iff_eq] at hp
    exact hp
  · intro env s h
    simp [createSwapchain, h]

theorem c4_witness :
    createSwapchain envNoFormat GfxState.initial =
      .error "failed to find suitable surface format" ∧
    ∀ f, chooseFormat envA.formats = some f → f.format = Format.eB8G8R8A8Srgb :=
  ⟨c4_format_selection.2.2 envNoFormat GfxState.initial (by decide),
   fun f h => (c4_format_selection.1 envA.formats f h).1⟩

/-- C6: `destroy()` is idempotent: on a freshly constructed instance it
    performs no native calls and leaves the state unchanged, and after any
    `destroy()` a second `destroy()` leaves the state unchanged and
    performs no further native releases (its trace contains no release
    call — at most the guarded device-idle wait). -/
theorem c6_destroy_idempotent :
    destroy GfxState.initial = (GfxState.initial, []) ∧
    (∀ s : GfxState, (destroy (destroy s).1).1 = (destroy s).1) ∧
    (∀ s : GfxState,
       ((destroy (destroy s).1).2).filterMap releaseStage = []) := by
  refine ⟨?_, ?_, ?_⟩
  · rw [destroy_eq]; rfl
  · intro s
    rw [destroy_eq, destroy_eq]
    rfl
  · intro s
    rw [destroy_eq, destroy_eq]
    simp only [destroyTrace, destroyedState]
    simp [releaseStage]

/-- C7: a resize notification whose geometry equals (component-wise, by
    value) the stored window geometry returns immediately: no event is
    emitted (no destroy/init, no native call, no configuration write) and
    the state — in particular the stored geometry — is unchanged. -/
theorem c7_resize_same_geometry_noop (env : Env) (w : WaylandState)
    (g : Geometry) (h : g = w.windowGeometry) :
    onResize env g w = .ok (w, []) := by
  simp [onResize, h]

theorem c7_witness :
    onResize envA ⟨640, 480⟩ ⟨GfxState.initial, ⟨640, 480⟩, true, 640, 480⟩ =
      .ok (⟨GfxState.initial, ⟨640, 480⟩, true, 640, 480⟩, []) :=
  c7_resize_same_geometry_noop envA
    ⟨GfxState.initial, ⟨640, 480⟩, true, 640, 480⟩ ⟨640, 480⟩ rfl

/-- C8: when the logical device does not exist yet and the queue-family
    scan resolves all four roles, `createDevice` derives the indices by the
    scan (whose early stop makes it insensitive to appending further
    families once complete, and whose assignments come from capability bits
    and present support), emits exactly one device-queue-create-request per
    distinct resolved index — the first-occurrence deduplication of the
    role list (graphics, present, transfer, compute) — and then retrieves
    all four role queues. -/
theorem c8_queue_family_selection (env : Env) (s : GfxState) (g p t c : Nat)
    (hd : s.device = none)
    (hq : findQueueFamilies env.queueFamilies env.presentSupport =
      ⟨some g, some p, some t, some c⟩) :
    createDevice env s =
      .ok ({ s with
              queueFamilyIndices := ⟨some g, some p, some t, some c⟩,
              device := some s.nextHandle,
              nextHandle := s.nextHandle + 1,
              queue := some (env.getQueue g 0),
              transferQueue := some (env.getQueue t 0),
              presentQueue := some (env.getQueue p 0),
              computeQueue := some (env.getQueue c 0) },
           [Event.createDevice (firstOccs [g, p, t, c]),
            Event.getQueue g, Event.getQueue t, Event.getQueue p,
            Event.getQueue c]) ∧
    (firstOccs [g, p, t, c]).Nodup ∧
    (∀ x, x ∈ firstOccs [g, p, t, c] ↔ x ∈ [g, p, t, c]) ∧
    (∀ extra, findQueueFamilies (env.queueFamilies ++ extra)
        env.presentSupport = ⟨some g, some p, some t, some c⟩) ∧
    rolesFromBits env.queueFamilies env.presentSupport
      ⟨some g, some p, some t, some c⟩ := by
  refine ⟨?_, firstOccs_nodup _, fun x => firstOccs_mem _ x, ?_, ?_⟩
  · rw [createDevice_run hd hq, queueCreateInfos_complete]
  · intro extra
    have hcomplete : (findQueueFamilies env.queueFamilies
        env.presentSupport).isComplete = true := by
      rw [hq]; rfl
    have h0 : (({} : QueueFamilyIndices)).isComplete = false := rfl
    unfold findQueueFamilies at hq hcomplete ⊢
    rw [findQueueFamiliesAux_append env.presentSupport extra
      env.queueFamilies 0 {} h0 hcomplete, hq]
  · rw [← hq]
    exact findQueueFamilies_bits env.queueFamilies env.presentSupport

theorem c8_witness :
    createDevice envA GfxState.initial =
      .ok ({ GfxState.initial with
              queueFamilyIndices := ⟨some 0, some 0, some 0, some 0⟩,
              device := some 0,
              nextHandle := 1,
              queue := some (envA.getQueue 0 0),
              transferQueue := some (envA.getQueue 0 0),
              presentQueue := some (envA.getQueue 0 0),
              computeQueue := some (envA.getQueue 0 0) },
           [Event.createDevice (firstOccs [0, 0, 0, 0]),
            Event.getQueue 0, Event.getQueue 0, Event.getQueue 0,
            Event.getQueue 0]) ∧
    (firstOccs [0, 0, 0, 0]).Nodup :=
  have h := c8_queue_family_selection envA GfxState.initial 0 0 0 0 rfl (by decide)
  ⟨h.1, h.2.1⟩

theorem getq_isSome {α : Type} {l : List α} {i : Nat} (h : i < l.length) :
    (l.get? i).isSome = true := by
  rw [List.get?_eq_get h]
  rfl

/-- C10: after every successful `init()`, the graphics command buffers,
    framebuffers and image views are each as numerous as the swapchain
    images (views sized to images, framebuffers to views, one graphics
    buffer per framebuffer), the image count is positive, and hence every
    image index below the image count is in bounds for the framebuffer and
    graphics-command-buffer sequences indexed inside `redraw()`. -/
theorem c10_per_image_resource_counts (fn : Option Nat) (env : Env)
    (s0 s1 : GfxState) (t1 : List Event)
    (h : init fn env s0 = .ok (s1, t1)) :
    s1.commandBuffers.graphics.length = s1.framebuffers.length ∧
    s1.framebuffers.length = s1.imageViews.length ∧
    s1.imageViews.length = s1.images.length ∧
    0 < s1.images.length ∧
    (∀ i, i < s1.images.length →
       i < s1.framebuffers.length ∧ i < s1.commandBuffers.graphics.length ∧
       (s1.framebuffers.get? i).isSome = true ∧
       (s1.commandBuffers.graphics.get? i).isSome = true) := by
  obtain ⟨mid, ta, f, m, hC, hf, hm, hcm, hi, e1, e2⟩ := init_inv h
  dsimp only at e1 e2
  have hpos : 0 < env.swapchainImages.length := List.length_pos.mpr hi
  rw [e1]
  refine ⟨?_, ?_, ?_, ?_, ?_⟩
  · simp [chainResult, List.length_range']
  · simp [chainResult, List.length_range']
  · simp [chainResult, List.length_range']
  · simpa [chainResult] using hpos
  · intro i hilt
    simp only [chainResult, List.length_range'] at hilt ⊢
    refine ⟨by simpa [List.length_range'] using hilt,
      by simpa [List.length_range'] using hilt,
      getq_isSome (by simpa [List.length_range'] using hilt),
      getq_isSome (by simpa [List.length_range'] using hilt)⟩

/-- C9: synchronization-primitive creation leaves both semaphores
    unsignaled and creates the in-flight fence pre-signaled (the fence
    creation call carries the signaled flag), so after a successful
    `init()` the fence wait at the start of the first `redraw()` does not
    block (its `waitForFences` event records that no blocking occurs). -/
theorem c9_sync_object_creation (fn : Option Nat) (env : Env)
    (s0 s1 : GfxState) (t1 : List Event)
    (h : init fn env s0 = .ok (s1, t1)) :
    s1.imageAvailableSignaled = false ∧
    s1.renderFinishedSignaled = false ∧
    s1.inFlightFenceSignaled = true ∧
    Event.createSemaphore SemName.imageAvailable ∈ t1 ∧
    Event.createSemaphore SemName.renderFinished ∈ t1 ∧
    Event.createFence true ∈ t1 ∧
    (∀ s : GfxState,
       (createSyncObjects s).1.imageAvailableSignaled = false ∧
       (createSyncObjects s).1.renderFinishedSignaled = false ∧
       (createSyncObjects s).1.inFlightFenceSignaled = true) ∧
    (∀ (geo : Geometry) (cw ch : Nat) (w2 : WaylandState) (tr : List WEvent),
       redraw env ⟨s1, geo, true, cw, ch⟩ = .ok (w2, tr) →
       tr.head? = some (WEvent.native (Event.waitForFences false))) := by
  obtain ⟨mid, ta, f, m, hC, hf, hm, hcm, hi, e1, e2⟩ := init_inv h
  dsimp only at e1 e2
  have hsig : s1.inFlightFenceSignaled = true := by rw [e1]; rfl
  refine ⟨by rw [e1]; rfl, by rw [e1]; rfl, hsig, ?_, ?_, ?_,
    fun s => ⟨rfl, rfl, rfl⟩, ?_⟩
  · rw [e2]
    refine List.mem_append_right _ ?_
    simp [chainTrace]
  · rw [e2]
    refine List.mem_append_right _ ?_
    simp [chainTrace]
  · rw [e2]
    refine List.mem_append_right _ ?_
    simp [chainTrace]
  · intro geo cw ch w2 tr hred
    unfold redraw at hred
    simp only [if_true] at hred
    rw [hsig] at hred
    split at hred
    · injection hred with h1
      injection h1 with ha hb
      rw [← hb]
      rfl
    · cases hred

/-- C1: across `init(); destroy(); init()`, the BackendContext-level
    handles (instance, physical device, logical device, the four role
    queues — and the surface) are identical across the two `init` calls and
    preserved by `destroy()`; the re-entered `init` performs no
    instance/device-selection/surface/device creation call; and the
    swapchain, image views, framebuffers, command pools, command buffers,
    semaphores and fence of the second `init` are freshly created handles,
    distinct from those of the first. -/
theorem c1_backend_context_preserved_across_reinit
    (env : Env) (fn fn2 : Option Nat) (s0 s1 s3 : GfxState)
    (t1 t3 : List Event)
    (h1 : init fn env s0 = .ok (s1, t1))
    (h2 : init fn2 env (destroy s1).1 = .ok (s3, t3)) :
    (s3.inst = s1.inst ∧ s3.physicalDevice = s1.physicalDevice ∧
     s3.device = s1.device ∧ s3.queue = s1.queue ∧
     s3.transferQueue = s1.transferQueue ∧ s3.presentQueue = s1.presentQueue ∧
     s3.computeQueue = s1.computeQueue ∧ s3.surface = s1.surface) ∧
    ((destroy s1).1.inst = s1.inst ∧
     (destroy s1).1.physicalDevice = s1.physicalDevice ∧
     (destroy s1).1.device = s1.device ∧ (destroy s1).1.queue = s1.queue ∧
     (destroy s1).1.transferQueue = s1.transferQueue ∧
     (destroy s1).1.presentQueue = s1.presentQueue ∧
     (destroy s1).1.computeQueue = s1.computeQueue ∧
     (destroy s1).1.surface = s1.surface) ∧
    (Event.createInstance ∉ t3 ∧ Event.selectPhysicalDevice ∉ t3 ∧
     Event.createSurface ∉ t3 ∧ (∀ l, Event.createDevice l ∉ t3)) ∧
    (s3.swapchain.isSome = true ∧ s3.swapchain ≠ s1.swapchain ∧
     s3.imageViews ≠ [] ∧ (∀ v ∈ s3.imageViews, v ∉ s1.imageViews) ∧
     (∀ v ∈ s3.framebuffers, v ∉ s1.framebuffers) ∧
     s3.commandPools.graphics ≠ s1.commandPools.graphics ∧
     s3.commandPools.transfer ≠ s1.commandPools.transfer ∧
     s3.commandPools.present ≠ s1.commandPools.present ∧
     s3.commandPools.compute ≠ s1.commandPools.compute ∧
     (∀ v ∈ s3.commandBuffers.graphics, v ∉ s1.commandBuffers.graphics) ∧
     s3.commandBuffers.transfer ≠ s1.commandBuffers.transfer ∧
     s3.commandBuffers.present ≠ s1.commandBuffers.present ∧
     s3.commandBuffers.compute ≠ s1.commandBuffers.compute ∧
     s3.imageAvailableSemaphore ≠ s1.imageAvailableSemaphore ∧
     s3.renderFinishedSemaphore ≠ s1.renderFinishedSemaphore ∧
     s3.inFlightFence ≠ s1.inFlightFence) := by
  obtain ⟨mid, ta, f, m, hC, hf, hm, hcm, hi, e1, e2⟩ := init_inv h1
  dsimp only at e1 e2
  obtain ⟨ci, cpd, cs, cd, cpl, cpll, cta⟩ := initContext_inv hC
  dsimp only at ci cpd cs cd cpl cpll cta
  subst e1
  rw [destroy_eq] at h2 ⊢
  dsimp only at h2 ⊢
  have w1 : (destroyedState (chainResult env mid f)).inst.isSome = true := by
    simpa [destroyedState, chainResult] using ci
  have w2 : (destroyedState (chainResult env mid f)).physicalDevice.isSome = true := by
    simpa [destroyedState, chainResult] using cpd
  have w3 : (destroyedState (chainResult env mid f)).surface.isSome = true := by
    simpa [destroyedState, chainResult] using cs
  have w4 : (destroyedState (chainResult env mid f)).device.isSome = true := by
    simpa [destroyedState, chainResult] using cd
  have warm := initContext_warm fn2 env w1 w2 w3 w4
  obtain ⟨mid2, ta2, f2, m2, hC2, hf2, hm2, hcm2, hi2, e3, e4⟩ := init_inv h2
  dsimp only at e3 e4
  rw [warm] at hC2
  injection hC2 with hpair
  have hmid2 : mid2 = destroyedState (chainResult env mid f) :=
    (congrArg Prod.fst hpair).symm
  have hta2 : ta2 = [] := (congrArg Prod.snd hpair).symm
  have hff : f2 = f := Option.some.inj (hf2.symm.trans hf)
  subst e3
  rw [hmid2, hff] at *
  have hn0 : env.swapchainImages.length ≠ 0 := by
    simpa using hi
  refine ⟨?_, ?_, ?_, ?_⟩
  · refine ⟨?_, ?_, ?_, ?_, ?_, ?_, ?_, ?_⟩ <;>
      simp [chainResult, destroyedState]
  · refine ⟨?_, ?_, ?_, ?_, ?_, ?_, ?_, ?_⟩ <;>
      simp [destroyedState, chainResult]
  · rw [e4, hta2]
    refine ⟨?_, ?_, ?_, ?_⟩ <;> simp [chainTrace]
  · refine ⟨?_, ?_, ?_, ?_, ?_, ?_, ?_, ?_, ?_, ?_, ?_, ?_, ?_, ?_, ?_, ?_⟩
    · simp [chainResult]
    · simp [chainResult, destroyedState]
      omega
    · intro hnil
      have := congrArg List.length hnil
      simp [chainResult, destroyedState, List.length_range'] at this
      exact hi this
    · intro v hv hv2
      simp only [chainResult, destroyedState] at hv hv2
      rw [mem_range_iff] at hv hv2
      omega
    · intro v hv hv2
      simp only [chainResult, destroyedState] at hv hv2
      rw [mem_range_iff] at hv hv2
      omega
    · simp [chainResult, destroyedState]
      omega
    · simp [chainResult, destroyedState]
      omega
    · simp [chainResult, destroyedState]
      omega
    · simp [chainResult, destroyedState]
      omega
    · intro v hv hv2
      simp only [chainResult, destroyedState] at hv hv2
      rw [mem_range_iff] at hv hv2
      omega
    · simp [chainResult, destroyedState]
      omega
    · simp [chainResult, destroyedState]
      omega
    · simp [chainResult, destroyedState]
      omega
    · simp [chainResult, destroyedState]
      omega
    · simp [chainResult, destroyedState]
      omega
    · simp [chainResult, destroyedState]
      omega

/-- C5: after every successful `init()` from a state holding no pipeline
    (the pipeline stage of `init` is stubbed out, so nothing ever acquires
    one), `destroy()` first waits for device idle and then releases
    exactly: fence, render-finished semaphore, image-available semaphore,
    the four command-buffer sets (graphics freed with its per-framebuffer
    count, the others with count one), the four command pools (compute,
    present, transfer, graphics), framebuffers, render pass, image views,
    swapchain — and at stage granularity this release order is precisely
    the reverse of the order in which `init` acquired the stages. -/
theorem c5_destroy_reverse_order (fn : Option Nat) (env : Env)
    (s0 s1 : GfxState) (t1 : List Event)
    (hpl : s0.pipeline = none) (hpll : s0.pipelineLayout = none)
    (h : init fn env s0 = .ok (s1, t1)) :
    (destroy s1).2 =
      [Event.waitIdle, Event.destroyFence,
       Event.destroySemaphore SemName.renderFinished,
       Event.destroySemaphore SemName.imageAvailable,
       Event.freeCommandBuffers Role.graphics s1.commandBuffers.graphics.length,
       Event.freeCommandBuffers Role.transfer 1,
       Event.freeCommandBuffers Role.present 1,
       Event.freeCommandBuffers Role.compute 1,
       Event.destroyCommandPool Role.compute,
       Event.destroyCommandPool Role.present,
       Event.destroyCommandPool Role.transfer,
       Event.destroyCommandPool Role.graphics]
      ++ List.replicate s1.framebuffers.length Event.destroyFramebuffer
      ++ [Event.destroyRenderPass]
      ++ List.replicate s1.imageViews.length Event.destroyImageView
      ++ [Event.destroySwapchainKHR] ∧
    firstOccs (((destroy s1).2).filterMap releaseStage) =
      (firstOccs (t1.filterMap acquireStage)).reverse := by
  obtain ⟨mid, ta, f, m, hC, hf, hm, hcm, hi, e1, e2⟩ := init_inv h
  dsimp only at e1 e2
  obtain ⟨ci, cpd, cs, cd, cpl, cpll, cta⟩ := initContext_inv hC
  dsimp only at ci cpd cs cd cpl cpll cta
  subst e1
  have hmpl : mid.pipeline = none := by rw [cpl, hpl]
  have hmpll : mid.pipelineLayout = none := by rw [cpll, hpll]
  have hn0 : env.swapchainImages.length ≠ 0 := by simpa using hi
  rw [destroy_eq]
  dsimp only
  constructor
  · simp [destroyTrace, chainResult, cd, hmpl, hmpll, map_const_fun,
      List.length_range', hi]
  · have hL : (destroyTrace (chainResult env mid f)).filterMap releaseStage =
        List.replicate 1 Stage.fence ++ (List.replicate 1 Stage.semaphoreRF ++
        (List.replicate 1 Stage.semaphoreIA ++
        (List.replicate 4 Stage.commandBuffers ++
        (List.replicate 4 Stage.commandPools ++
        (List.replicate env.swapchainImages.length Stage.framebuffers ++
        (List.replicate 1 Stage.renderPass ++
        (List.replicate env.swapchainImages.length Stage.imageViews ++
        (List.replicate 1 Stage.swapchain ++ [])))))))) := by
      simp [destroyTrace, chainResult, cd, hmpl, hmpll, map_const_fun,
        List.length_range', hi, releaseStage, List.filterMap_append,
        filterMap_replicate_some]
    have hR : (t1.filterMap acquireStage) =
        List.replicate 1 Stage.swapchain ++
        (List.replicate env.swapchainImages.length Stage.imageViews ++
        (List.replicate 1 Stage.renderPass ++
        (List.replicate env.swapchainImages.length Stage.framebuffers ++
        (List.replicate 4 Stage.commandPools ++
        (List.replicate 4 Stage.commandBuffers ++
        (List.replicate 1 Stage.semaphoreIA ++
        (List.replicate 1 Stage.semaphoreRF ++
        (List.replicate 1 Stage.fence ++ [])))))))) := by
      rw [e2]
      simp [List.filterMap_append, cta, chainTrace, acquireStage,
        filterMap_replicate_some]
    rw [hL, hR]
    unfold firstOccs
    rw [firstOccsAux_replicate_pos 1 Stage.fence _ _ (by decide) (by decide),
      firstOccsAux_replicate_pos 1 Stage.semaphoreRF _ _ (by decide) (by decide),
      firstOccsAux_replicate_pos 1 Stage.semaphoreIA _ _ (by decide) (by decide),
      firstOccsAux_replicate_pos 4 Stage.commandBuffers _ _ (by decide) (by decide),
      firstOccsAux_replicate_pos 4 Stage.commandPools _ _ (by decide) (by decide),
      firstOccsAux_replicate_pos env.swapchainImages.length Stage.framebuffers
        _ _ (by decide) hn0,
      firstOccsAux_replicate_pos 1 Stage.renderPass _ _ (by decide) (by decide),
      firstOccsAux_replicate_pos env.swapchainImages.length Stage.imageViews
        _ _ (by decide) hn0,
      firstOccsAux_replicate_pos 1 Stage.swapchain _ _ (by decide) (by decide)]
    rw [firstOccsAux_replicate_pos 1 Stage.swapchain _ _ (by decide) (by decide),
      firstOccsAux_replicate_pos env.swapchainImages.length Stage.imageViews
        _ _ (by decide) hn0,
      firstOccsAux_replicate_pos 1 Stage.renderPass _ _ (by decide) (by decide),
      firstOccsAux_replicate_pos env.swapchainImages.length Stage.framebuffers
        _ _ (by decide) hn0,
      firstOccsAux_replicate_pos 4 Stage.commandPools _ _ (by decide) (by decide),
      firstOccsAux_replicate_pos 4 Stage.commandBuffers _ _ (by decide) (by decide),
      firstOccsAux_replicate_pos 1 Stage.semaphoreIA _ _ (by decide) (by decide),
      firstOccsAux_replicate_pos 1 Stage.semaphoreRF _ _ (by decide) (by decide),
      firstOccsAux_replicate_pos 1 Stage.fence _ _ (by decide) (by decide)]
    simp [firstOccsAux]

theorem c1_witness :
    runB.1.inst = runA.1.inst ∧ runB.1.device = runA.1.device ∧
    runB.1.swapchain ≠ runA.1.swapchain ∧ runB.1.imageViews ≠ [] :=
  have h1 : init (some 500) envA GfxState.initial = .ok (runA.1, runA.2) := rfl
  have h2 : init none envA (destroy runA.1).1 = .ok (runB.1, runB.2) := rfl
  have r := c1_backend_context_preserved_across_reinit envA (some 500) none
    GfxState.initial runA.1 runB.1 runA.2 runB.2 h1 h2
  ⟨r.1.1, r.1.2.2.1, r.2.2.2.2.1, r.2.2.2.2.2.1⟩

theorem c5_witness :
    firstOccs (((destroy runA.1).2).filterMap releaseStage) =
      (firstOccs ((runA.2).filterMap acquireStage)).reverse :=
  have h1 : init (some 500) envA GfxState.initial = .ok (runA.1, runA.2) := rfl
  (c5_destroy_reverse_order (some 500) envA GfxState.initial runA.1 runA.2
    rfl rfl h1).2

theorem c9_witness :
    runA.1.inFlightFenceSignaled = true ∧
    (redrawA.2).head? = some (WEvent.native (Event.waitForFences false)) :=
  have h1 : init (some 500) envA GfxState.initial = .ok (runA.1, runA.2) := rfl
  have hred : redraw envA ⟨runA.1, ⟨640, 480⟩, true, 640, 480⟩ =
      .ok (redrawA.1, redrawA.2) := rfl
  have r := c9_sync_object_creation (some 500) envA GfxState.initial
    runA.1 runA.2 h1
  ⟨r.2.2.1, r.2.2.2.2.2.2.2 ⟨640, 480⟩ 640 480 redrawA.1 redrawA.2 hred⟩

theorem c10_witness :
    runA.1.commandBuffers.graphics.length = runA.1.framebuffers.length ∧
    0 < runA.1.images.length :=
  have h1 : init (some 500) envA GfxState.initial = .ok (runA.1, runA.2) := rfl
  have r := c10_per_image_resource_counts (some 500) envA GfxState.initial
    runA.1 runA.2 h1
  ⟨r.1, r.2.2.2.1⟩

end HotAir

